import Mathlib

/-!
Verification of `create-icons.py`, a one-shot build-time asset generator that
draws two fixed-size PWA icons (192x192 and 512x512) with the Python Imaging
Library and writes them to `public/icons/`.

The script is embedded shallowly:
* colors are RGB triples of naturals, obtained by parsing the literal color
  strings of the source (`'#6b21a8'`, `'white'`) with a model of PIL's
  `ImageColor.getrgb`;
* an in-memory canvas is a width, a height and a pixel map;
* `ImageDraw.ellipse` paints the pixels inside the ellipse inscribed in the
  given bounding box;
* `ImageDraw.text` paints the pixels of a glyph mask; glyph rasterization
  depends on the font files available at run time, so the mask is a parameter
  of the environment (`Env.raster`), given the font handle, the character and
  the anchor, as coverage relative to the anchor point (PIL anchor `'mm'`
  centers the glyph's bounding box on the anchor coordinate);
* `ImageFont.truetype` may fail depending on the environment
  (`Env.truetypeOk`); the script's bare `try/except` then substitutes
  `ImageFont.load_default()`;
* `Image.save` may fail depending on the environment (`Env.save1ok`,
  `Env.save2ok`); an uncaught failure aborts the script at that line;
* the run produces a final file system, an event trace (file writes and
  stdout lines, in program order) and a completion flag.
-/

namespace CreateIcons

/-- An RGB color, one byte per channel. -/
structure RGB where
  r : Nat
  g : Nat
  b : Nat
deriving DecidableEq, Repr

/-- Value of one hexadecimal digit character, as in PIL's color parser. -/
def hexVal (c : Char) : Option Nat :=
  if '0' ≤ c ∧ c ≤ '9' then some (c.toNat - '0'.toNat)
  else if 'a' ≤ c ∧ c ≤ 'f' then some (c.toNat - 'a'.toNat + 10)
  else if 'A' ≤ c ∧ c ≤ 'F' then some (c.toNat - 'A'.toNat + 10)
  else none

/-- Model of PIL `ImageColor.getrgb` restricted to the color syntaxes the
script uses: a `#rrggbb` hex string, and the named color `white`. -/
def getrgb (s : String) : Option RGB :=
  match s.toList with
  | ['#', r1, r2, g1, g2, b1, b2] => do
      let rh ← hexVal r1
      let rl ← hexVal r2
      let gh ← hexVal g1
      let gl ← hexVal g2
      let bh ← hexVal b1
      let bl ← hexVal b2
      some ⟨16 * rh + rl, 16 * gh + gl, 16 * bh + bl⟩
  | _ => if s = "white" then some ⟨255, 255, 255⟩ else none

/-- The brand background color of the script, `'#6b21a8'`. -/
def brandColor : RGB := (getrgb "#6b21a8").getD ⟨0, 0, 0⟩

/-- The circle fill color of the script, `'white'`. -/
def whiteColor : RGB := (getrgb "white").getD ⟨0, 0, 0⟩

/-- A font handle: either a scalable font loaded by name at a point size
(`ImageFont.truetype`), or the built-in bitmap fallback
(`ImageFont.load_default()`, which takes no size argument). -/
inductive Font where
  | truetype (name : String) (size : Nat)
  | default
deriving DecidableEq, Repr

/-- Nominal pixel size of PIL's built-in bitmap font returned by
`ImageFont.load_default()` when called with no size argument. -/
def defaultFontNominalSize : Nat := 10

/-- The size a glyph is rendered at for a given font handle: the requested
size for a truetype font, the built-in fixed size for the fallback. -/
def Font.renderSize : Font → Nat
  | .truetype _ s => s
  | .default => defaultFontNominalSize

/-- The run-time environment the script executes in: which truetype loads
succeed, how glyphs rasterize, and whether each of the two file writes
succeeds. `raster f c a p` tells whether the glyph of character `c` drawn
with font `f` and anchor `a` covers the pixel at offset `p` from the anchor
coordinate. -/
structure Env where
  truetypeOk : String → Nat → Bool
  raster : Font → Char → String → Int × Int → Bool
  save1ok : Bool
  save2ok : Bool

/-- Model of `ImageFont.truetype(name, size)`: succeeds or raises depending
on the environment. -/
def truetype (env : Env) (name : String) (size : Nat) : Option Font :=
  if env.truetypeOk name size then some (.truetype name size) else none

/-- Lines 10-13 of the script: load arial.ttf at size 60, and on any
exception fall back to `ImageFont.load_default()`. -/
def font192 (env : Env) : Font :=
  (truetype env "arial.ttf" 60).getD Font.default

/-- Lines 21-24 of the script: load arial.ttf at size 160, and on any
exception fall back to `ImageFont.load_default()`. -/
def font512 (env : Env) : Font :=
  (truetype env "arial.ttf" 160).getD Font.default

/-- An in-memory canvas: fixed dimensions and a pixel map. -/
structure Img where
  width : Nat
  height : Nat
  px : Int → Int → RGB

/-- Model of `Image.new('RGB', (w, h), color=c)`: a canvas filled with `c`. -/
def imageNew (w h : Nat) (c : RGB) : Img :=
  ⟨w, h, fun _ _ => c⟩

/-- Whether pixel `(x, y)` lies inside the ellipse inscribed in the bounding
box `(x0, y0, x1, y1)`, the region `ImageDraw.ellipse` fills. Stated without
division: center `((x0+x1)/2, (y0+y1)/2)`, semi-axes `(x1-x0)/2` and
`(y1-y0)/2`. -/
def inEllipse (b : Int × Int × Int × Int) (x y : Int) : Bool :=
  decide ((2 * x - (b.1 + b.2.2.1)) ^ 2 * (b.2.2.2 - b.2.1) ^ 2 +
      (2 * y - (b.2.1 + b.2.2.2)) ^ 2 * (b.2.2.1 - b.1) ^ 2 ≤
    (b.2.2.1 - b.1) ^ 2 * (b.2.2.2 - b.2.1) ^ 2)

/-- Model of `ImageDraw.ellipse(box, fill=c)`: paint the inscribed ellipse. -/
def drawEllipse (b : Int × Int × Int × Int) (c : RGB) (img : Img) : Img :=
  { img with px := fun x y => if inEllipse b x y then c else img.px x y }

/-- The arguments of one `ImageDraw.text` call of the script. -/
structure TextCall where
  pos : Int × Int
  ch : Char
  fill : RGB
  font : Font
  anchor : String

/-- Model of `ImageDraw.text(pos, ch, fill, font, anchor)`: paint with the
fill color every pixel the environment's rasterization of the glyph covers,
relative to the anchor coordinate. -/
def applyText (env : Env) (t : TextCall) (img : Img) : Img :=
  { img with px := fun x y =>
      if env.raster t.font t.ch t.anchor (x - t.pos.1, y - t.pos.2) then t.fill
      else img.px x y }

/-- Ellipse bounding box of the 192x192 icon (line 8 of the script). -/
def bbox192 : Int × Int × Int × Int := (64, 64, 128, 128)

/-- Ellipse bounding box of the 512x512 icon (line 20 of the script). -/
def bbox512 : Int × Int × Int × Int := (170, 170, 342, 342)

/-- Lines 5-8: the 192x192 canvas after background fill and white circle. -/
def circleStage192 : Img :=
  drawEllipse bbox192 whiteColor (imageNew 192 192 brandColor)

/-- Lines 18-20: the 512x512 canvas after background fill and white circle. -/
def circleStage512 : Img :=
  drawEllipse bbox512 whiteColor (imageNew 512 512 brandColor)

/-- Line 14: `draw192.text((96, 96), 'T', fill='#6b21a8', font=font,
anchor='mm')`. -/
def textCall192 (env : Env) : TextCall :=
  ⟨(96, 96), 'T', brandColor, font192 env, "mm"⟩

/-- Line 25: `draw512.text((256, 256), 'T', fill='#6b21a8', font=font,
anchor='mm')`. -/
def textCall512 (env : Env) : TextCall :=
  ⟨(256, 256), 'T', brandColor, font512 env, "mm"⟩

/-- The finished 192x192 canvas, as handed to `img192.save`. -/
def img192final (env : Env) : Img :=
  applyText env (textCall192 env) circleStage192

/-- The finished 512x512 canvas, as handed to `img512.save`. -/
def img512final (env : Env) : Img :=
  applyText env (textCall512 env) circleStage512

/-- A PNG file on disk: the losslessly serialized canvas. -/
structure PNG where
  width : Nat
  height : Nat
  px : Int → Int → RGB

/-- A structurally well-formed PNG: positive pixel dimensions. -/
def PNG.valid (p : PNG) : Prop := 0 < p.width ∧ 0 < p.height

/-- Model of `img.save(path)` payload: lossless serialization of the canvas. -/
def Img.save (img : Img) : PNG := ⟨img.width, img.height, img.px⟩

/-- The file system, mapping paths to the PNG stored there, if any. -/
def FS : Type := String → Option PNG

/-- Writing (creating or overwriting) a file. -/
def FS.update (fs : FS) (path : String) (p : PNG) : FS :=
  fun q => if q = path then some p else fs q

/-- Output path of the first icon (line 15). -/
def iconPath192 : String := "public/icons/icon-192x192.png"

/-- Output path of the second icon (line 26). -/
def iconPath512 : String := "public/icons/icon-512x512.png"

/-- The literal confirmation string of line 28. -/
def successMessage : String := "Icons created successfully!"

/-- Observable events of a run, in program order: file writes and lines
printed to standard output. -/
inductive Event where
  | save (path : String)
  | stdout (s : String)
deriving DecidableEq, Repr

/-- Outcome of a run: the final file system, the event trace in program
order, and whether the script ran to completion (an uncaught exception from
a `save` aborts it). -/
structure RunResult where
  fs : FS
  events : List Event
  ok : Bool

/-- The whole script, lines 5-28: build and save the 192 icon; if that write
succeeds, build and save the 512 icon; if that write also succeeds, print
the confirmation line. An uncaught save failure terminates the run at that
line, leaving the file system as it was. -/
def run (env : Env) (fs0 : FS) : RunResult :=
  let i192 := img192final env
  if env.save1ok then
    let fs1 := fs0.update iconPath192 i192.save
    let i512 := img512final env
    if env.save2ok then
      let fs2 := fs1.update iconPath512 i512.save
      ⟨fs2, [.save iconPath192, .save iconPath512, .stdout successMessage], true⟩
    else
      ⟨fs1, [.save iconPath192], false⟩
  else
    ⟨fs0, [], false⟩

/-- How many of the two output files exist. -/
def outputCount (fs : FS) : Nat :=
  (if (fs iconPath192).isSome then 1 else 0) +
    (if (fs iconPath512).isSome then 1 else 0)

/-- `a` is within `tol` of `b`. -/
def approxWithin (a b tol : Int) : Prop := a - b ≤ tol ∧ b - a ≤ tol

instance (a b tol : Int) : Decidable (approxWithin a b tol) := by
  unfold approxWithin
  infer_instance

/-- Half-width of a bounding box `(x0, y0, x1, y1)`: the horizontal
semi-axis of the inscribed ellipse. -/
def halfWidth (b : Int × Int × Int × Int) : Int := (b.2.2.1 - b.1) / 2

/-- Environment where both truetype loads and both writes succeed and the
glyph rasterizes to nothing (a concrete witness input). -/
def envAll : Env :=
  { truetypeOk := fun _ _ => true
    raster := fun _ _ _ _ => false
    save1ok := true
    save2ok := true }

/-- Like `envAll`, but the write of the first icon fails. -/
def envFail1 : Env := { envAll with save1ok := false }

/-- Like `envAll`, but no truetype font load succeeds. -/
def envNoFont : Env := { envAll with truetypeOk := fun _ _ => false }

/-- A rasterization of the capital letter 'T' (top bar plus centered
vertical stem) as a middle-middle anchored mask: the stem covers the anchor
point itself, as in any faithful rendering of 'T'. -/
def rasterT (_f : Font) (c : Char) (a : String) (p : Int × Int) : Bool :=
  if c = 'T' ∧ a = "mm" then
    decide ((p.1.natAbs ≤ 3 ∧ p.2.natAbs ≤ 30) ∨
      (p.1.natAbs ≤ 20 ∧ -30 ≤ p.2 ∧ p.2 ≤ -24))
  else false

/-- Like `envAll`, but glyphs rasterize as `rasterT`. -/
def envT : Env := { envAll with raster := rasterT }

/-- The empty initial file system. -/
def emptyFS : FS := fun _ => none

/-- C1: after a successful run both output paths hold valid PNGs of exactly
192x192 and 512x512 pixels. -/
theorem C1_outputs_valid (env : Env) (fs0 : FS)
    (h : (run env fs0).ok = true) :
    ∃ p1 p2 : PNG,
      (run env fs0).fs iconPath192 = some p1 ∧ p1.valid ∧
        p1.width = 192 ∧ p1.height = 192 ∧
      (run env fs0).fs iconPath512 = some p2 ∧ p2.valid ∧
        p2.width = 512 ∧ p2.height = 512 := by
  cases h1 : env.save1ok
  · simp [run, h1] at h
  · cases h2 : env.save2ok
    · simp [run, h1, h2] at h
    · refine ⟨(img192final env).save, (img512final env).save, ?_⟩
      have hne : iconPath192 ≠ iconPath512 := by decide
      simp [run, h1, h2, FS.update, hne, Img.save, PNG.valid,
        img192final, img512final, applyText, circleStage192, circleStage512,
        drawEllipse, imageNew]

/-- Witness for C1 at a concrete successful environment. -/
theorem C1_witness :
    (run envAll emptyFS).ok = true ∧
    ∃ p1 p2 : PNG,
      (run envAll emptyFS).fs iconPath192 = some p1 ∧ p1.valid ∧
        p1.width = 192 ∧ p1.height = 192 ∧
      (run envAll emptyFS).fs iconPath512 = some p2 ∧ p2.valid ∧
        p2.width = 512 ∧ p2.height = 512 :=
  ⟨by decide, C1_outputs_valid envAll emptyFS (by decide)⟩

/-- C2 counterexample: in the environment `envT`, whose glyph mask for 'T'
covers the anchor point (as any real rendering of 'T' does, the stem passing
through the glyph middle), the pixel at the canvas center of both icons is
the brand color (107, 33, 168), not white. -/
theorem C2_counterexample :
    (img192final envT).px 96 96 = ⟨107, 33, 168⟩ ∧
    (img512final envT).px 256 256 = ⟨107, 33, 168⟩ ∧
    (⟨107, 33, 168⟩ : RGB) ≠ ⟨255, 255, 255⟩ := by decide

/-- C2 amended: the pixel at the canvas center is the brand color
`#6b21a8` when the rendered glyph covers the center (the glyph 'T' is drawn
at exactly that coordinate, middle-middle anchored, in the background
color), and white otherwise. -/
theorem C2_center_pixel (env : Env) :
    ((img192final env).px 96 96 =
      if env.raster (font192 env) 'T' "mm" (0, 0) then brandColor
      else whiteColor) ∧
    ((img512final env).px 256 256 =
      if env.raster (font512 env) 'T' "mm" (0, 0) then brandColor
      else whiteColor) ∧
    brandColor = ⟨107, 33, 168⟩ ∧ whiteColor = ⟨255, 255, 255⟩ := by
  have e192 : inEllipse bbox192 96 96 = true := by decide
  have e512 : inEllipse bbox512 256 256 = true := by decide
  refine ⟨?_, ?_, by decide, by decide⟩ <;>
    simp [img192final, img512final, applyText, textCall192, textCall512,
      circleStage192, circleStage512, drawEllipse, imageNew, e192, e512]

/-- C3: when both truetype loads fail but the writes succeed, the run still
completes: the fallback font is used for both icons, the event trace holds
exactly the two writes and the single success line (nothing else is printed
or logged), and both valid output files are produced. -/
theorem C3_font_fallback (env : Env) (fs0 : FS)
    (h60 : env.truetypeOk "arial.ttf" 60 = false)
    (h160 : env.truetypeOk "arial.ttf" 160 = false)
    (hs1 : env.save1ok = true) (hs2 : env.save2ok = true) :
    (run env fs0).ok = true ∧
    font192 env = Font.default ∧ font512 env = Font.default ∧
    (run env fs0).events =
      [.save iconPath192, .save iconPath512, .stdout successMessage] ∧
    (∃ p1, (run env fs0).fs iconPath192 = some p1 ∧ p1.valid ∧
      p1.width = 192 ∧ p1.height = 192) ∧
    (∃ p2, (run env fs0).fs iconPath512 = some p2 ∧ p2.valid ∧
      p2.width = 512 ∧ p2.height = 512) := by
  have hne : iconPath192 ≠ iconPath512 := by decide
  refine ⟨?_, ?_, ?_, ?_, ⟨(img192final env).save, ?_⟩,
    ⟨(img512final env).save, ?_⟩⟩ <;>
    simp [run, hs1, hs2, h60, h160, font192, font512, truetype, FS.update,
      hne, Img.save, PNG.valid, img192final, img512final, applyText,
      circleStage192, circleStage512, drawEllipse, imageNew]

/-- Witness for C3 at a concrete environment with no truetype font. -/
theorem C3_witness :
    (run envNoFont emptyFS).ok = true ∧
    font192 envNoFont = Font.default := by
  have h := C3_font_fallback envNoFont emptyFS rfl rfl rfl rfl
  exact ⟨h.1, h.2.1⟩

/-- C4: the corner pixel (0, 0) of both finished icons is the brand color
(107, 33, 168) in every environment, and so is every pixel outside both the
circle and the glyph mask. -/
theorem C4_background (env : Env) :
    (img192final env).px 0 0 = ⟨107, 33, 168⟩ ∧
    (img512final env).px 0 0 = ⟨107, 33, 168⟩ ∧
    (∀ x y : Int, inEllipse bbox192 x y = false →
      env.raster (font192 env) 'T' "mm" (x - 96, y - 96) = false →
      (img192final env).px x y = ⟨107, 33, 168⟩) ∧
    (∀ x y : Int, inEllipse bbox512 x y = false →
      env.raster (font512 env) 'T' "mm" (x - 256, y - 256) = false →
      (img512final env).px x y = ⟨107, 33, 168⟩) := by
  have hb : brandColor = ⟨107, 33, 168⟩ := by decide
  have e192 : inEllipse bbox192 0 0 = false := by decide
  have e512 : inEllipse bbox512 0 0 = false := by decide
  refine ⟨?_, ?_, ?_, ?_⟩
  · by_cases h : env.raster (font192 env) 'T' "mm" (0 - 96, 0 - 96) = true <;>
      simp [img192final, applyText, textCall192, circleStage192, drawEllipse,
        imageNew, e192, h, hb]
  · by_cases h : env.raster (font512 env) 'T' "mm" (0 - 256, 0 - 256) = true <;>
      simp [img512final, applyText, textCall512, circleStage512, drawEllipse,
        imageNew, e512, h, hb]
  · intro x y he hr
    simp [img192final, applyText, textCall192, circleStage192, drawEllipse,
      imageNew, he, hr, hb]
  · intro x y he hr
    simp [img512final, applyText, textCall512, circleStage512, drawEllipse,
      imageNew, he, hr, hb]

/-- Witness for C4 at a concrete environment and a concrete untouched
pixel. -/
theorem C4_witness :
    (img192final envAll).px 0 0 = ⟨107, 33, 168⟩ ∧
    (img192final envAll).px 5 7 = ⟨107, 33, 168⟩ :=
  ⟨(C4_background envAll).1,
    (C4_background envAll).2.2.1 5 7 (by decide) (by decide)⟩

/-- C5 counterexample: the semi-axis (radius) of the drawn circles is 32
resp. 86 pixels, which is not approximately S/3 (= 64 resp. 170) even with
a generous 25 percent tolerance. -/
theorem C5_counterexample :
    halfWidth bbox192 = 32 ∧ halfWidth bbox512 = 86 ∧
    ¬ approxWithin (3 * halfWidth bbox192) 192 48 ∧
    ¬ approxWithin (3 * halfWidth bbox512) 512 128 := by decide

/-- C5 amended: the white filled ellipse of each icon is drawn with the
exact bounding boxes [64,64]-[128,128] and [170,170]-[342,342]; these are
centered on the canvas and give radius approximately S/6 (diameter
approximately S/3); the canvas is white at the circle center and brand
colored at the corner after this stage. -/
theorem C5_ellipse_box :
    bbox192 = (64, 64, 128, 128) ∧ bbox512 = (170, 170, 342, 342) ∧
    bbox192.1 + bbox192.2.2.1 = 2 * 96 ∧ bbox192.2.1 + bbox192.2.2.2 = 2 * 96 ∧
    bbox512.1 + bbox512.2.2.1 = 2 * 256 ∧ bbox512.2.1 + bbox512.2.2.2 = 2 * 256 ∧
    approxWithin (6 * halfWidth bbox192) 192 4 ∧
    approxWithin (6 * halfWidth bbox512) 512 4 ∧
    circleStage192.px 96 96 = whiteColor ∧
    circleStage192.px 0 0 = brandColor ∧
    circleStage512.px 256 256 = whiteColor ∧
    circleStage512.px 0 0 = brandColor := by decide

/-- C6: when the truetype loads succeed, the glyph drawn on each icon is the
single capital letter 'T', at the canvas midpoint, middle-middle anchored,
in the brand color (107, 33, 168), with the font at size 60 resp. 160; and
every pixel the glyph mask covers, relative to the midpoint, is painted in
that color on the finished icon. -/
theorem C6_glyph (env : Env)
    (h60 : env.truetypeOk "arial.ttf" 60 = true)
    (h160 : env.truetypeOk "arial.ttf" 160 = true) :
    (textCall192 env).ch = 'T' ∧ (textCall512 env).ch = 'T' ∧
    (textCall192 env).pos = (192 / 2, 192 / 2) ∧
    (textCall512 env).pos = (512 / 2, 512 / 2) ∧
    (textCall192 env).anchor = "mm" ∧ (textCall512 env).anchor = "mm" ∧
    (textCall192 env).fill = ⟨107, 33, 168⟩ ∧
    (textCall512 env).fill = ⟨107, 33, 168⟩ ∧
    (textCall192 env).font = Font.truetype "arial.ttf" 60 ∧
    (textCall512 env).font = Font.truetype "arial.ttf" 160 ∧
    (∀ dx dy : Int, env.raster (font192 env) 'T' "mm" (dx, dy) = true →
      (img192final env).px (96 + dx) (96 + dy) = ⟨107, 33, 168⟩) ∧
    (∀ dx dy : Int, env.raster (font512 env) 'T' "mm" (dx, dy) = true →
      (img512final env).px (256 + dx) (256 + dy) = ⟨107, 33, 168⟩) := by
  have hb : brandColor = ⟨107, 33, 168⟩ := by decide
  refine ⟨rfl, rfl, ?_, ?_, rfl, rfl, hb, hb, ?_, ?_, ?_, ?_⟩
  · show ((96 : Int), (96 : Int)) = (192 / 2, 192 / 2)
    norm_num
  · show ((256 : Int), (256 : Int)) = (512 / 2, 512 / 2)
    norm_num
  · simp [textCall192, font192, truetype, h60]
  · simp [textCall512, font512, truetype, h160]
  · intro dx dy hr
    have hx : (96 : Int) + dx - 96 = dx := by ring
    have hy : (96 : Int) + dy - 96 = dy := by ring
    simp [img192final, applyText, textCall192, hx, hy, hr, hb]
  · intro dx dy hr
    have hx : (256 : Int) + dx - 256 = dx := by ring
    have hy : (256 : Int) + dy - 256 = dy := by ring
    simp [img512final, applyText, textCall512, hx, hy, hr, hb]

/-- Witness for C6 at a concrete environment with working truetype. -/
theorem C6_witness :
    (textCall192 envAll).font = Font.truetype "arial.ttf" 60 ∧
    (textCall512 envAll).font = Font.truetype "arial.ttf" 160 := by
  have h := C6_glyph envAll rfl rfl
  exact ⟨h.2.2.2.2.2.2.2.2.1, h.2.2.2.2.2.2.2.2.2.1⟩

/-- C7: the confirmation line is printed exactly once when both writes
succeed and never otherwise, and in a fully successful run it is the last
event, after both file writes. -/
theorem C7_confirmation (env : Env) (fs0 : FS) :
    ((run env fs0).events).count (Event.stdout successMessage) =
      (if env.save1ok && env.save2ok then 1 else 0) ∧
    (env.save1ok && env.save2ok = true →
      (run env fs0).events =
        [.save iconPath192, .save iconPath512, .stdout successMessage]) := by
  cases h1 : env.save1ok <;> cases h2 : env.save2ok <;>
    simp [run, h1, h2, List.count_cons, List.count_nil]

/-- Witness for C7 at a concrete successful environment. -/
theorem C7_witness :
    ((run envAll emptyFS).events).count (Event.stdout successMessage) = 1 ∧
    (run envAll emptyFS).events =
      [.save iconPath192, .save iconPath512, .stdout successMessage] := by
  have h := C7_confirmation envAll emptyFS
  exact ⟨by simpa using h.1, h.2 rfl⟩

/-- C8: if the first write fails, the run aborts with no events at all (in
particular the second icon is never saved), the second path stays empty,
and at most one output file exists afterwards. -/
theorem C8_first_write_fails (env : Env) (fs0 : FS)
    (h : env.save1ok = false)
    (h1 : fs0 iconPath192 = none) (h2 : fs0 iconPath512 = none) :
    (run env fs0).events = [] ∧
    Event.save iconPath512 ∉ (run env fs0).events ∧
    (run env fs0).fs iconPath512 = none ∧
    outputCount (run env fs0).fs ≤ 1 := by
  simp [run, h, outputCount, h1, h2]

/-- Witness for C8 at a concrete environment whose first write fails. -/
theorem C8_witness :
    (run envFail1 emptyFS).events = [] ∧
    outputCount (run envFail1 emptyFS).fs ≤ 1 := by
  have h := C8_first_write_fails envFail1 emptyFS rfl rfl rfl
  exact ⟨h.1, h.2.2.2⟩

/-- C9: the pixel content of both icons is a function of the font
resolution and glyph rasterization alone, so two runs in the same
environment produce identical pixel content. -/
theorem C9_deterministic (env1 env2 : Env)
    (ht : env1.truetypeOk = env2.truetypeOk)
    (hr : env1.raster = env2.raster) :
    img192final env1 = img192final env2 ∧
    img512final env1 = img512final env2 := by
  unfold img192final img512final applyText textCall192 textCall512
    font192 font512 truetype
  rw [ht, hr]
  exact ⟨rfl, rfl⟩

/-- Witness for C9: two environments with the same fonts and rasterization
but different write outcomes yield the same pixel content. -/
theorem C9_witness :
    img192final envAll = img192final envFail1 ∧
    img512final envAll = img512final envFail1 :=
  C9_deterministic envAll envFail1 rfl rfl

/-- C10: when the truetype loads fail, the fallback font carries no size:
both passes use the very same `Font.default`, rendered at the built-in
fixed size, not at the requested sizes 60 and 160. -/
theorem C10_fallback_size (env : Env)
    (h60 : env.truetypeOk "arial.ttf" 60 = false)
    (h160 : env.truetypeOk "arial.ttf" 160 = false) :
    font192 env = Font.default ∧ font512 env = Font.default ∧
    font192 env = font512 env ∧
    (font192 env).renderSize = defaultFontNominalSize ∧
    (font512 env).renderSize = defaultFontNominalSize ∧
    (font192 env).renderSize ≠ 60 ∧ (font512 env).renderSize ≠ 160 := by
  simp [font192, font512, truetype, h60, h160, Font.renderSize,
    defaultFontNominalSize]

/-- Witness for C10 at a concrete environment with no truetype font. -/
theorem C10_witness :
    font192 envNoFont = Font.default ∧
    (font192 envNoFont).renderSize ≠ 60 := by
  have h := C10_fallback_size envNoFont rfl rfl
  exact ⟨h.1, h.2.2.2.2.2.1⟩

end CreateIcons
